import Mathlib

/-!
Verification of `nbgrader/dbutil.py` against its specification.

The module under verification writes an alembic configuration file from a
template (`write_alembic_ini`), manages a scoped temporary directory holding
such a configuration (`_temp_alembic_ini`), and invokes the external
`alembic` tool as a subprocess (`upgrade`, `_alembic`).

The embedding models the Python runtime explicitly:
  * the file system is a state record `FS` (files, directories, permission
    lists, a counter for fresh temporary-directory names, and a trace of
    subprocess invocations);
  * fallible operations return `Except PyErr` paired with the state after
    the operation, so exceptional control flow is explicit;
  * the behaviour of the external tool is a parameter `exitCode` mapping an
    argument list to the process exit status.
-/

/-- Exceptions of the modelled Python runtime that this module can raise:
I/O errors from `open` and `subprocess.CalledProcessError` from
`check_call`. -/
inductive PyErr where
  | fileNotFound (path : String)
  | permissionDenied (path : String)
  | calledProcessError (cmd : List String) (returncode : Nat)
deriving Repr, DecidableEq

/-- State of the modelled file system and process environment: regular files
(path, content), existing directories, paths that cannot be opened for
reading resp. writing, a counter supplying fresh temporary-directory names,
and the trace of subprocess invocations made so far. -/
structure FS where
  files : List (String × String)
  dirs : List String
  unreadable : List String
  unwritable : List String
  tmpCounter : Nat
  calls : List (List String)
deriving Repr, DecidableEq

/-- Content of the regular file at path `p`, if one exists. -/
def lookupFile (fs : FS) (p : String) : Option String :=
  (fs.files.find? (fun kv => kv.1 == p)).map (fun kv => kv.2)

/-- Replace (or create) the regular file at path `p` with content `c`.  The
file list is an association list in which the most recent entry for a path
shadows older ones. -/
def setFile (fs : FS) (p c : String) : FS :=
  { fs with files := (p, c) :: fs.files }

/-- Model of Python `open(p).read()`: raises `PermissionError` if the path is
unreadable, `FileNotFoundError` if no file exists there, and otherwise
returns the file's content. -/
def openRead (fs : FS) (p : String) : Except PyErr String :=
  if p ∈ fs.unreadable then Except.error (PyErr.permissionDenied p)
  else
    match lookupFile fs p with
    | some c => Except.ok c
    | none => Except.error (PyErr.fileNotFound p)

/-- Model of Python `open(p, 'w').write(c)`: raises `PermissionError` if the
path is unwritable, and otherwise truncates/creates the file at `p` with
content `c`. -/
def openWrite (fs : FS) (p c : String) : Except PyErr FS :=
  if p ∈ fs.unwritable then Except.error (PyErr.permissionDenied p)
  else Except.ok (setFile fs p c)

/-- Source line 13, `_here = os.path.abspath(os.path.dirname(__file__))`: the
absolute path of the directory containing the module file.  Its concrete
value depends on where the package is installed; it is fixed here to a
representative location, and no theorem below depends on the value. -/
def _here : String := "/srv/nbgrader/nbgrader"

/-- Source line 15: path of the shipped alembic.ini template, next to the
module file. -/
def ALEMBIC_INI_TEMPLATE_PATH : String := _here ++ "/alembic.ini"

/-- Source line 16: path of the migration-scripts directory, the `alembic`
subdirectory next to the module file. -/
def ALEMBIC_DIR : String := _here ++ "/alembic"

/-- Characters of the replacement field `\x7balembic_dir\x7d` appearing in the
template. -/
def alembicDirField : List Char :=
  ['\x7b', 'a', 'l', 'e', 'm', 'b', 'i', 'c', '_', 'd', 'i', 'r', '\x7d']

/-- Characters of the replacement field `\x7bdb_url\x7d` appearing in the
template. -/
def dbUrlField : List Char :=
  ['\x7b', 'd', 'b', '_', 'u', 'r', 'l', '\x7d']

/-- Model of Python `tpl.format(alembic_dir=ad, db_url=du)` (source lines
33-36) on the character list of the template: a single left-to-right pass
replacing each occurrence of the two named replacement fields by the
corresponding value.  Replaced text is not rescanned, exactly as in
`str.format`.  The model is faithful for templates, like the shipped
alembic.ini, whose braces occur only in these two replacement fields. -/
def phSubst (ad du : List Char) : List Char → List Char
  | [] => []
  | c :: rest =>
    if alembicDirField.isPrefixOf (c :: rest) then ad ++ phSubst ad du (rest.drop 12)
    else if dbUrlField.isPrefixOf (c :: rest) then du ++ phSubst ad du (rest.drop 7)
    else c :: phSubst ad du rest
termination_by l => l.length
decreasing_by
  · simp; omega
  · simp; omega
  · simp

/-- String-level wrapper of `phSubst`: the content written by the
configuration writer for template `tpl`, migrations directory `ad` and
database url `du`. -/
def pyFormat (tpl ad du : String) : String :=
  String.mk (phSubst ad.data du.data tpl.data)

/-- Source lines 19-37, `write_alembic_ini(alembic_ini, db_url)`: read the
template, substitute `ALEMBIC_DIR` and `db_url` into it, and write the
result to `alembic_ini`. -/
def write_alembic_ini (alembic_ini : String) (db_url : String) (fs : FS) :
    Except PyErr FS :=
  match openRead fs ALEMBIC_INI_TEMPLATE_PATH with
  | Except.error e => Except.error e
  | Except.ok alembic_ini_tpl =>
      openWrite fs alembic_ini (pyFormat alembic_ini_tpl ALEMBIC_DIR db_url)

/-- Source line 19 signature: `write_alembic_ini` called with no arguments,
so Python supplies the declared defaults `alembic_ini='alembic.ini'` and
`db_url='sqlite:///gradebook.db'`. -/
def write_alembic_ini_noargs (fs : FS) : Except PyErr FS :=
  write_alembic_ini ("alembic.ini") ("sqlite:///gradebook.db") fs

/-- Name of the `n`-th temporary directory handed out by `mkdtemp`. -/
def tmpdirName (n : Nat) : String := "/tmp/tmp" ++ Nat.repr n

/-- Model of `tempfile.mkdtemp()` (source line 55): create and return a fresh
temporary directory. -/
def mkdtemp (fs : FS) : String × FS :=
  (tmpdirName fs.tmpCounter,
   { fs with
       dirs := tmpdirName fs.tmpCounter :: fs.dirs,
       tmpCounter := fs.tmpCounter + 1 })

/-- Whether path `p` lies strictly inside directory `td`. -/
def isPathUnder (td : String) (p : String) : Bool :=
  (td ++ "/").data.isPrefixOf p.data

/-- Model of `shutil.rmtree(td)` (source line 61): remove the directory `td`
together with everything inside it. -/
def rmtree (td : String) (fs : FS) : FS :=
  { fs with
      dirs := fs.dirs.filter (fun d => !(d == td || isPathUnder td d)),
      files := fs.files.filter (fun kv => !(isPathUnder td kv.1)) }

/-- Source lines 40-61, `_temp_alembic_ini(db_url)`: create a temporary
directory, write an alembic.ini for `db_url` inside it, run the caller's
`body` on the resulting path, and remove the directory on every exit path
(the `try`/`finally` of the context manager), rethrowing whatever exception
escaped the `try` block. -/
def _temp_alembic_ini {α : Type} (db_url : String)
    (body : String → FS → Except PyErr α × FS) (fs : FS) : Except PyErr α × FS :=
  let td := (mkdtemp fs).1
  let fs1 := (mkdtemp fs).2
  let alembic_ini := td ++ "/" ++ "alembic.ini"
  match write_alembic_ini alembic_ini db_url fs1 with
  | Except.error e => (Except.error e, rmtree td fs1)
  | Except.ok fs2 =>
      let r := body alembic_ini fs2
      (r.1, rmtree td r.2)

/-- Model of `subprocess.check_call(cmd)` (source lines 72-74, 80-82): record
the invocation, return normally when the external tool exits with status 0,
and raise `CalledProcessError` otherwise.  `exitCode` is the behaviour of the
external tool. -/
def check_call (exitCode : List String → Nat) (cmd : List String) (fs : FS) :
    Except PyErr Unit × FS :=
  ((if exitCode cmd = 0 then Except.ok ()
    else Except.error (PyErr.calledProcessError cmd (exitCode cmd))),
   { fs with calls := fs.calls ++ [cmd] })

/-- Source lines 64-74, `upgrade(db_url, revision)`: run
`alembic -c <temp ini> upgrade <revision>` with a temporary alembic.ini
written for `db_url`. -/
def upgrade (exitCode : List String → Nat) (db_url : String) (revision : String)
    (fs : FS) : Except PyErr Unit × FS :=
  _temp_alembic_ini db_url
    (fun alembic_ini fsa =>
      check_call exitCode (["alembic", "-c", alembic_ini, "upgrade", revision]) fsa)
    fs

/-- Source line 64 signature: `upgrade` called without a revision argument,
so Python supplies the declared default `revision='head'`. -/
def upgrade_norevision (exitCode : List String → Nat) (db_url : String) (fs : FS) :
    Except PyErr Unit × FS :=
  upgrade exitCode db_url ("head") fs

/-- Source lines 77-82, `_alembic(*args)`: run `alembic -c <temp ini>` with
the caller's arguments appended, using a temporary alembic.ini written for
the fixed default connection string `sqlite:///gradebook.db`. -/
def _alembic (exitCode : List String → Nat) (args : List String) (fs : FS) :
    Except PyErr Unit × FS :=
  _temp_alembic_ini ("sqlite:///gradebook.db")
    (fun alembic_ini fsa =>
      check_call exitCode (["alembic", "-c", alembic_ini] ++ args) fsa)
    fs

/-! ## Lemmas about the template substitution -/

theorem phSubst_nil (ad du : List Char) : phSubst ad du [] = [] := by
  simp [phSubst]

theorem phSubst_cons_ne (ad du : List Char) (c : Char) (l : List Char) (h : c ≠ '\x7b') :
    phSubst ad du (c :: l) = c :: phSubst ad du l := by
  have h1 : alembicDirField.isPrefixOf (c :: l) = false := by
    simp [alembicDirField, List.isPrefixOf]
    intro hx
    exact absurd hx.symm h
  have h2 : dbUrlField.isPrefixOf (c :: l) = false := by
    simp [dbUrlField, List.isPrefixOf]
    intro hx
    exact absurd hx.symm h
  rw [phSubst, h1, h2]
  simp

theorem phSubst_field1 (ad du : List Char) (s : List Char) :
    phSubst ad du (alembicDirField ++ s) = ad ++ phSubst ad du s := by
  have hpre : alembicDirField.isPrefixOf (alembicDirField ++ s) = true := by
    simp [alembicDirField, List.isPrefixOf]
  rw [show alembicDirField ++ s =
      '\x7b' :: ('a' :: 'l' :: 'e' :: 'm' :: 'b' :: 'i' :: 'c' :: '_' :: 'd' :: 'i' :: 'r' :: '\x7d' :: s) from rfl]
  rw [phSubst]
  rw [show alembicDirField.isPrefixOf
      ('\x7b' :: ('a' :: 'l' :: 'e' :: 'm' :: 'b' :: 'i' :: 'c' :: '_' :: 'd' :: 'i' :: 'r' :: '\x7d' :: s)) = true
      from hpre]
  simp

theorem phSubst_field2 (ad du : List Char) (s : List Char) :
    phSubst ad du (dbUrlField ++ s) = du ++ phSubst ad du s := by
  have hpre : dbUrlField.isPrefixOf (dbUrlField ++ s) = true := by
    simp [dbUrlField, List.isPrefixOf]
  have hnot : alembicDirField.isPrefixOf (dbUrlField ++ s) = false := by
    simp [alembicDirField, dbUrlField, List.isPrefixOf]
  rw [show dbUrlField ++ s = '\x7b' :: ('d' :: 'b' :: '_' :: 'u' :: 'r' :: 'l' :: '\x7d' :: s) from rfl]
  rw [phSubst]
  rw [show alembicDirField.isPrefixOf ('\x7b' :: ('d' :: 'b' :: '_' :: 'u' :: 'r' :: 'l' :: '\x7d' :: s)) = false
      from hnot]
  rw [show dbUrlField.isPrefixOf ('\x7b' :: ('d' :: 'b' :: '_' :: 'u' :: 'r' :: 'l' :: '\x7d' :: s)) = true
      from hpre]
  simp

theorem phSubst_braceFree_append (ad du : List Char) (a : List Char) (h : '\x7b' ∉ a)
    (s : List Char) : phSubst ad du (a ++ s) = a ++ phSubst ad du s := by
  induction a with
  | nil => simp
  | cons c t ih =>
      have hc : c ≠ '\x7b' := fun hx => h (hx ▸ List.mem_cons_self c t)
      have ht : '\x7b' ∉ t := fun hx => h (List.mem_cons_of_mem c hx)
      rw [List.cons_append, phSubst_cons_ne ad du c (t ++ s) hc, ih ht, List.cons_append]

theorem phSubst_braceFree_id (ad du : List Char) (a : List Char) (h : '\x7b' ∉ a) :
    phSubst ad du a = a := by
  have := phSubst_braceFree_append ad du a h []
  simpa [phSubst_nil] using this

theorem pyFormat_data (tpl ad du : String) :
    (pyFormat tpl ad du).data = phSubst ad.data du.data tpl.data := rfl

/-- Shape of the output of `pyFormat` on a template holding exactly the two
replacement fields, once each, with no other brace anywhere: everything
around the fields is copied unchanged. -/
theorem pyFormat_two_fields (tpl ad du : String) (a b c : List Char)
    (htpl : tpl.data = a ++ alembicDirField ++ b ++ dbUrlField ++ c)
    (ha : '\x7b' ∉ a) (hb : '\x7b' ∉ b) (hc : '\x7b' ∉ c) :
    (pyFormat tpl ad du).data = a ++ ad.data ++ b ++ du.data ++ c := by
  rw [pyFormat_data, htpl]
  rw [List.append_assoc, List.append_assoc, List.append_assoc]
  rw [phSubst_braceFree_append _ _ a ha]
  rw [phSubst_field1]
  rw [← List.append_assoc b, List.append_assoc]
  rw [phSubst_braceFree_append _ _ b hb]
  rw [phSubst_field2]
  rw [phSubst_braceFree_id _ _ c hc]
  simp [List.append_assoc]

/-! ## Lemmas about the file-system model -/

theorem lookupFile_setFile_self (fs : FS) (p c : String) :
    lookupFile (setFile fs p c) p = some c := by
  simp [lookupFile, setFile]

theorem lookupFile_setFile_ne (fs : FS) (p c q : String) (h : q ≠ p) :
    lookupFile (setFile fs p c) q = lookupFile fs q := by
  have : (p == q) = false := beq_eq_false_iff_ne.mpr (fun hx => h hx.symm)
  simp [lookupFile, setFile, List.find?_cons, this]

theorem lookupFile_mkdtemp (fs : FS) (p : String) :
    lookupFile (mkdtemp fs).2 p = lookupFile fs p := rfl

theorem rmtree_not_mem_dirs (td : String) (fs : FS) : td ∉ (rmtree td fs).dirs := by
  intro hmem
  simp [rmtree, List.mem_filter] at hmem

theorem lookupFile_rmtree_under (td q : String) (fs : FS) (h : isPathUnder td q = true) :
    lookupFile (rmtree td fs) q = none := by
  have hfind : ((rmtree td fs).files.find? (fun kv => kv.1 == q)) = none := by
    apply List.find?_eq_none.mpr
    intro kv hkv
    simp [rmtree, List.mem_filter] at hkv
    intro hbeq
    exact absurd (beq_iff_eq.mp hbeq ▸ h) (by simp [hkv.2])
  simp [lookupFile, hfind]

theorem rmtree_calls (td : String) (fs : FS) : (rmtree td fs).calls = fs.calls := rfl

/-- Success case of the configuration writer: when the template is readable
and the target writable, the write succeeds and the resulting state is the
old one with the formatted configuration stored at the target path. -/
theorem write_alembic_ini_ok (fs : FS) (p db_url tpl : String)
    (hr : lookupFile fs ALEMBIC_INI_TEMPLATE_PATH = some tpl)
    (hru : ALEMBIC_INI_TEMPLATE_PATH ∉ fs.unreadable)
    (hw : p ∉ fs.unwritable) :
    write_alembic_ini p db_url fs =
      Except.ok (setFile fs p (pyFormat tpl ALEMBIC_DIR db_url)) := by
  simp [write_alembic_ini, openRead, openWrite, hr, hru, hw]

theorem mkdtemp_fst (fs : FS) : (mkdtemp fs).1 = tmpdirName fs.tmpCounter := rfl

theorem isPathUnder_append (td s : String) : isPathUnder td (td ++ "/" ++ s) = true := by
  have hdata : (td ++ "/" ++ s).data = (td ++ "/").data ++ s.data :=
    String.data_append (td ++ "/") s
  simp [isPathUnder, hdata, List.isPrefixOf_iff_prefix]

/-- The second component of `_temp_alembic_ini` is always the result of a
final `rmtree` of the temporary directory, whichever way the body of the
context manager exits. -/
theorem temp_alembic_ini_snd {α : Type} (db_url : String)
    (body : String → FS → Except PyErr α × FS) (fs : FS) :
    ∃ fsf, (_temp_alembic_ini db_url body fs).2 = rmtree (tmpdirName fs.tmpCounter) fsf := by
  unfold _temp_alembic_ini
  cases hw : write_alembic_ini (tmpdirName fs.tmpCounter ++ "/" ++ "alembic.ini") db_url
      (mkdtemp fs).2 with
  | error e => exact ⟨(mkdtemp fs).2, by simp [mkdtemp_fst, hw]⟩
  | ok fs2 =>
      exact ⟨(body (tmpdirName fs.tmpCounter ++ "/" ++ "alembic.ini") fs2).2,
        by simp [mkdtemp_fst, hw]⟩

/-- Successful-write unfolding of the scoped temporary configuration: when
the template is readable and the fresh path writable, the context manager
runs its body on the path of the freshly written configuration and finally
removes the temporary directory. -/
theorem temp_alembic_ini_ok_unfold {α : Type} (db_url : String)
    (body : String → FS → Except PyErr α × FS) (fs : FS) (tpl : String)
    (hread : lookupFile fs ALEMBIC_INI_TEMPLATE_PATH = some tpl)
    (hru : ALEMBIC_INI_TEMPLATE_PATH ∉ fs.unreadable)
    (hw : tmpdirName fs.tmpCounter ++ "/" ++ "alembic.ini" ∉ fs.unwritable) :
    _temp_alembic_ini db_url body fs =
      ((body (tmpdirName fs.tmpCounter ++ "/" ++ "alembic.ini")
          (setFile (mkdtemp fs).2 (tmpdirName fs.tmpCounter ++ "/" ++ "alembic.ini")
            (pyFormat tpl ALEMBIC_DIR db_url))).1,
       rmtree (tmpdirName fs.tmpCounter)
         (body (tmpdirName fs.tmpCounter ++ "/" ++ "alembic.ini")
            (setFile (mkdtemp fs).2 (tmpdirName fs.tmpCounter ++ "/" ++ "alembic.ini")
              (pyFormat tpl ALEMBIC_DIR db_url))).2) := by
  have hwr : write_alembic_ini (tmpdirName fs.tmpCounter ++ "/" ++ "alembic.ini") db_url
      (mkdtemp fs).2 =
      Except.ok (setFile (mkdtemp fs).2 (tmpdirName fs.tmpCounter ++ "/" ++ "alembic.ini")
        (pyFormat tpl ALEMBIC_DIR db_url)) :=
    write_alembic_ini_ok (mkdtemp fs).2 (tmpdirName fs.tmpCounter ++ "/" ++ "alembic.ini")
      db_url tpl (by rw [lookupFile_mkdtemp]; exact hread) hru hw
  unfold _temp_alembic_ini
  simp only [mkdtemp_fst, hwr]

/-! ## Concrete states used to exercise the theorems -/

/-- Representative content of the shipped alembic.ini template: the two
replacement fields surrounded by ordinary configuration text. -/
def sampleTemplate : String :=
  "[alembic]\nscript_location = \x7balembic_dir\x7d\nsqlalchemy.url = \x7bdb_url\x7d\n"

/-- A file system holding the readable template, a writable world and an
empty invocation trace. -/
def sampleFS : FS :=
  { files := [(ALEMBIC_INI_TEMPLATE_PATH, sampleTemplate)],
    dirs := ["/tmp"],
    unreadable := [],
    unwritable := [],
    tmpCounter := 0,
    calls := [] }

/-- A file system with no template file at all. -/
def emptyFS : FS :=
  { files := [], dirs := ["/tmp"], unreadable := [], unwritable := [],
    tmpCounter := 0, calls := [] }

/-- A body for the context manager that does nothing and succeeds. -/
def noopBody : String → FS → Except PyErr Unit × FS :=
  fun _ s => (Except.ok (), s)

/-! ## The claims -/

/-- C1: for every connection string `db_url` and every target path,
`write_alembic_ini` writes to the target path exactly the template file's
content with its two placeholders replaced by the migrations-directory path
and by `db_url` — all other template content unchanged (stated for every
decomposition of the template into brace-free text around its two
replacement fields) — overwriting any file previously at the target path and
leaving every other file untouched. -/
theorem write_alembic_ini_writes_formatted_template (fs : FS) (p db_url tpl : String)
    (hread : lookupFile fs ALEMBIC_INI_TEMPLATE_PATH = some tpl)
    (hru : ALEMBIC_INI_TEMPLATE_PATH ∉ fs.unreadable)
    (hw : p ∉ fs.unwritable) :
    ∃ fs', write_alembic_ini p db_url fs = Except.ok fs' ∧
      lookupFile fs' p = some (pyFormat tpl ALEMBIC_DIR db_url) ∧
      (∀ q, q ≠ p → lookupFile fs' q = lookupFile fs q) ∧
      (∀ a b c : List Char,
        tpl.data = a ++ alembicDirField ++ b ++ dbUrlField ++ c →
        '\x7b' ∉ a → '\x7b' ∉ b → '\x7b' ∉ c →
        (pyFormat tpl ALEMBIC_DIR db_url).data =
          a ++ ALEMBIC_DIR.data ++ b ++ db_url.data ++ c) := by
  refine ⟨setFile fs p (pyFormat tpl ALEMBIC_DIR db_url),
    write_alembic_ini_ok fs p db_url tpl hread hru hw,
    lookupFile_setFile_self fs p _,
    fun q hq => lookupFile_setFile_ne fs p _ q hq,
    fun a b c htpl ha hb hc => pyFormat_two_fields tpl ALEMBIC_DIR db_url a b c htpl ha hb hc⟩

theorem write_alembic_ini_writes_formatted_template_witness :
    lookupFile sampleFS ALEMBIC_INI_TEMPLATE_PATH = some sampleTemplate ∧
    ALEMBIC_INI_TEMPLATE_PATH ∉ sampleFS.unreadable ∧
    ("/tmp/x/alembic.ini" : String) ∉ sampleFS.unwritable ∧
    ∃ fs', write_alembic_ini ("/tmp/x/alembic.ini") ("sqlite:///g.db") sampleFS =
        Except.ok fs' ∧
      lookupFile fs' ("/tmp/x/alembic.ini") =
        some (pyFormat sampleTemplate ALEMBIC_DIR ("sqlite:///g.db")) ∧
      (∀ q, q ≠ "/tmp/x/alembic.ini" → lookupFile fs' q = lookupFile sampleFS q) ∧
      (∀ a b c : List Char,
        sampleTemplate.data = a ++ alembicDirField ++ b ++ dbUrlField ++ c →
        '\x7b' ∉ a → '\x7b' ∉ b → '\x7b' ∉ c →
        (pyFormat sampleTemplate ALEMBIC_DIR ("sqlite:///g.db")).data =
          a ++ ALEMBIC_DIR.data ++ b ++ ("sqlite:///g.db" : String).data ++ c) :=
  ⟨by decide, by decide, by decide,
    write_alembic_ini_writes_formatted_template sampleFS ("/tmp/x/alembic.ini")
      ("sqlite:///g.db") sampleTemplate (by decide) (by decide) (by decide)⟩

/-- C2: for every connection string and every caller-supplied operation run
inside the scoped temporary configuration, the temporary directory created
by `_temp_alembic_ini` no longer exists once the scope is exited — neither
the directory itself nor any file beneath it — whether the operation
completes normally or raises. -/
theorem temp_alembic_ini_cleanup {α : Type} (db_url : String)
    (body : String → FS → Except PyErr α × FS) (fs : FS) :
    tmpdirName fs.tmpCounter ∉ (_temp_alembic_ini db_url body fs).2.dirs ∧
    ∀ q, isPathUnder (tmpdirName fs.tmpCounter) q = true →
      lookupFile (_temp_alembic_ini db_url body fs).2 q = none := by
  obtain ⟨fsf, hf⟩ := temp_alembic_ini_snd db_url body fs
  rw [hf]
  exact ⟨rmtree_not_mem_dirs _ _, fun q hq => lookupFile_rmtree_under _ q fsf hq⟩

theorem temp_alembic_ini_cleanup_witness :
    isPathUnder (tmpdirName sampleFS.tmpCounter) ("/tmp/tmp0/alembic.ini") = true ∧
    tmpdirName sampleFS.tmpCounter ∉
      (_temp_alembic_ini ("sqlite:///g.db") noopBody sampleFS).2.dirs ∧
    lookupFile (_temp_alembic_ini ("sqlite:///g.db") noopBody sampleFS).2
      ("/tmp/tmp0/alembic.ini") = none :=
  ⟨by decide,
    (temp_alembic_ini_cleanup ("sqlite:///g.db") noopBody sampleFS).1,
    (temp_alembic_ini_cleanup ("sqlite:///g.db") noopBody sampleFS).2
      ("/tmp/tmp0/alembic.ini") (by decide)⟩

/-- External tool that always succeeds. -/
def exitZero : List String → Nat := fun _ => 0

/-- External tool that always fails with status 1. -/
def exitOne : List String → Nat := fun _ => 1

/-- C3: for every connection string and revision identifier `revision`,
`upgrade` invokes the external tool exactly once, with the argument list
`["alembic", "-c", <temp config path>, "upgrade", revision]`; called without
a revision argument it passes the default sentinel `head` in the revision
position. -/
theorem upgrade_invokes_alembic_once (exitCode : List String → Nat)
    (db_url revision : String) (fs : FS) (tpl : String)
    (hread : lookupFile fs ALEMBIC_INI_TEMPLATE_PATH = some tpl)
    (hru : ALEMBIC_INI_TEMPLATE_PATH ∉ fs.unreadable)
    (hw : tmpdirName fs.tmpCounter ++ "/" ++ "alembic.ini" ∉ fs.unwritable) :
    (upgrade exitCode db_url revision fs).2.calls =
      fs.calls ++ [["alembic", "-c", tmpdirName fs.tmpCounter ++ "/" ++ "alembic.ini",
        "upgrade", revision]] ∧
    upgrade_norevision exitCode db_url fs = upgrade exitCode db_url ("head") fs := by
  refine ⟨?_, rfl⟩
  unfold upgrade
  rw [temp_alembic_ini_ok_unfold db_url _ fs tpl hread hru hw]
  simp [check_call, rmtree, setFile, mkdtemp]

theorem upgrade_invokes_alembic_once_witness :
    lookupFile sampleFS ALEMBIC_INI_TEMPLATE_PATH = some sampleTemplate ∧
    ALEMBIC_INI_TEMPLATE_PATH ∉ sampleFS.unreadable ∧
    tmpdirName sampleFS.tmpCounter ++ "/" ++ "alembic.ini" ∉ sampleFS.unwritable ∧
    ((upgrade exitZero ("sqlite:///g.db") ("head") sampleFS).2.calls =
      sampleFS.calls ++ [["alembic", "-c",
        tmpdirName sampleFS.tmpCounter ++ "/" ++ "alembic.ini", "upgrade", "head"]] ∧
     upgrade_norevision exitZero ("sqlite:///g.db") sampleFS =
       upgrade exitZero ("sqlite:///g.db") ("head") sampleFS) :=
  ⟨by decide, by decide, by decide,
    upgrade_invokes_alembic_once exitZero ("sqlite:///g.db") ("head") sampleFS sampleTemplate
      (by decide) (by decide) (by decide)⟩

/-- C4: `upgrade` returns normally if and only if the external tool exits
with status zero on the single invocation it makes; a non-zero status turns
into the corresponding `CalledProcessError`, which propagates to the caller
unchanged. -/
theorem upgrade_succeeds_iff_tool_exits_zero (exitCode : List String → Nat)
    (db_url revision : String) (fs : FS) (tpl : String)
    (hread : lookupFile fs ALEMBIC_INI_TEMPLATE_PATH = some tpl)
    (hru : ALEMBIC_INI_TEMPLATE_PATH ∉ fs.unreadable)
    (hw : tmpdirName fs.tmpCounter ++ "/" ++ "alembic.ini" ∉ fs.unwritable) :
    ((upgrade exitCode db_url revision fs).1 = Except.ok () ↔
      exitCode (["alembic", "-c", tmpdirName fs.tmpCounter ++ "/" ++ "alembic.ini",
        "upgrade", revision]) = 0) ∧
    (exitCode (["alembic", "-c", tmpdirName fs.tmpCounter ++ "/" ++ "alembic.ini",
        "upgrade", revision]) ≠ 0 →
      (upgrade exitCode db_url revision fs).1 =
        Except.error (PyErr.calledProcessError
          (["alembic", "-c", tmpdirName fs.tmpCounter ++ "/" ++ "alembic.ini",
            "upgrade", revision])
          (exitCode (["alembic", "-c", tmpdirName fs.tmpCounter ++ "/" ++ "alembic.ini",
            "upgrade", revision])))) := by
  unfold upgrade
  rw [temp_alembic_ini_ok_unfold db_url _ fs tpl hread hru hw]
  constructor
  · by_cases h : exitCode (["alembic", "-c",
        tmpdirName fs.tmpCounter ++ "/" ++ "alembic.ini", "upgrade", revision]) = 0 <;>
      simp [check_call, h]
  · intro h
    simp [check_call, h]

theorem upgrade_succeeds_iff_tool_exits_zero_witness :
    lookupFile sampleFS ALEMBIC_INI_TEMPLATE_PATH = some sampleTemplate ∧
    ALEMBIC_INI_TEMPLATE_PATH ∉ sampleFS.unreadable ∧
    tmpdirName sampleFS.tmpCounter ++ "/" ++ "alembic.ini" ∉ sampleFS.unwritable ∧
    (((upgrade exitOne ("sqlite:///g.db") ("head") sampleFS).1 = Except.ok () ↔
      exitOne (["alembic", "-c", tmpdirName sampleFS.tmpCounter ++ "/" ++ "alembic.ini",
        "upgrade", "head"]) = 0) ∧
     (exitOne (["alembic", "-c", tmpdirName sampleFS.tmpCounter ++ "/" ++ "alembic.ini",
        "upgrade", "head"]) ≠ 0 →
      (upgrade exitOne ("sqlite:///g.db") ("head") sampleFS).1 =
        Except.error (PyErr.calledProcessError
          (["alembic", "-c", tmpdirName sampleFS.tmpCounter ++ "/" ++ "alembic.ini",
            "upgrade", "head"])
          (exitOne (["alembic", "-c",
            tmpdirName sampleFS.tmpCounter ++ "/" ++ "alembic.ini", "upgrade", "head"]))))) :=
  ⟨by decide, by decide, by decide,
    upgrade_succeeds_iff_tool_exits_zero exitOne ("sqlite:///g.db") ("head") sampleFS
      sampleTemplate (by decide) (by decide) (by decide)⟩

/-- C5: `write_alembic_ini` raises exactly the underlying I/O error of the
failing primitive — the template being unreadable or missing, or the target
path being unwritable — unmodified, and raises in no other I/O circumstance
of its own. -/
theorem write_alembic_ini_error_iff (fs : FS) (p db_url : String) (e : PyErr) :
    write_alembic_ini p db_url fs = Except.error e ↔
      ((ALEMBIC_INI_TEMPLATE_PATH ∈ fs.unreadable ∧
          e = PyErr.permissionDenied ALEMBIC_INI_TEMPLATE_PATH) ∨
       (ALEMBIC_INI_TEMPLATE_PATH ∉ fs.unreadable ∧
          lookupFile fs ALEMBIC_INI_TEMPLATE_PATH = none ∧
          e = PyErr.fileNotFound ALEMBIC_INI_TEMPLATE_PATH) ∨
       (ALEMBIC_INI_TEMPLATE_PATH ∉ fs.unreadable ∧
          (∃ tpl, lookupFile fs ALEMBIC_INI_TEMPLATE_PATH = some tpl) ∧
          p ∈ fs.unwritable ∧ e = PyErr.permissionDenied p)) := by
  by_cases h1 : ALEMBIC_INI_TEMPLATE_PATH ∈ fs.unreadable
  · simp [write_alembic_ini, openRead, h1, eq_comm]
  · cases h2 : lookupFile fs ALEMBIC_INI_TEMPLATE_PATH with
    | none => simp [write_alembic_ini, openRead, h1, h2, eq_comm]
    | some tpl =>
        by_cases h3 : p ∈ fs.unwritable
        · simp [write_alembic_ini, openRead, openWrite, h1, h2, h3, eq_comm]
        · simp [write_alembic_ini, openRead, openWrite, h1, h2, h3]

/-- C6: for every argument list `args`, `_alembic` obtains the scoped
temporary configuration for the fixed default connection string
`sqlite:///gradebook.db` — the configuration file handed to the body is
formatted with that url — and invokes the external tool with the argument
list `["alembic", "-c", <temp config path>]` followed by `args` in order. -/
theorem alembic_passthrough_invocation (exitCode : List String → Nat)
    (args : List String) (fs : FS) (tpl : String)
    (hread : lookupFile fs ALEMBIC_INI_TEMPLATE_PATH = some tpl)
    (hru : ALEMBIC_INI_TEMPLATE_PATH ∉ fs.unreadable)
    (hw : tmpdirName fs.tmpCounter ++ "/" ++ "alembic.ini" ∉ fs.unwritable) :
    lookupFile (setFile (mkdtemp fs).2 (tmpdirName fs.tmpCounter ++ "/" ++ "alembic.ini")
        (pyFormat tpl ALEMBIC_DIR ("sqlite:///gradebook.db")))
      (tmpdirName fs.tmpCounter ++ "/" ++ "alembic.ini") =
      some (pyFormat tpl ALEMBIC_DIR ("sqlite:///gradebook.db")) ∧
    _alembic exitCode args fs =
      ((check_call exitCode ((["alembic", "-c",
          tmpdirName fs.tmpCounter ++ "/" ++ "alembic.ini"]) ++ args)
          (setFile (mkdtemp fs).2 (tmpdirName fs.tmpCounter ++ "/" ++ "alembic.ini")
            (pyFormat tpl ALEMBIC_DIR ("sqlite:///gradebook.db")))).1,
       rmtree (tmpdirName fs.tmpCounter)
         (check_call exitCode ((["alembic", "-c",
            tmpdirName fs.tmpCounter ++ "/" ++ "alembic.ini"]) ++ args)
            (setFile (mkdtemp fs).2 (tmpdirName fs.tmpCounter ++ "/" ++ "alembic.ini")
              (pyFormat tpl ALEMBIC_DIR ("sqlite:///gradebook.db")))).2) ∧
    (_alembic exitCode args fs).2.calls =
      fs.calls ++ [(["alembic", "-c",
        tmpdirName fs.tmpCounter ++ "/" ++ "alembic.ini"]) ++ args] := by
  have hu := temp_alembic_ini_ok_unfold ("sqlite:///gradebook.db")
      (fun alembic_ini fsa =>
        check_call exitCode ((["alembic", "-c", alembic_ini]) ++ args) fsa)
      fs tpl hread hru hw
  refine ⟨lookupFile_setFile_self _ _ _, ?_, ?_⟩
  · unfold _alembic
    rw [hu]
  · unfold _alembic
    rw [hu]
    simp [check_call, rmtree, setFile, mkdtemp]

theorem alembic_passthrough_invocation_witness :
    lookupFile sampleFS ALEMBIC_INI_TEMPLATE_PATH = some sampleTemplate ∧
    ALEMBIC_INI_TEMPLATE_PATH ∉ sampleFS.unreadable ∧
    tmpdirName sampleFS.tmpCounter ++ "/" ++ "alembic.ini" ∉ sampleFS.unwritable ∧
    (lookupFile (setFile (mkdtemp sampleFS).2
        (tmpdirName sampleFS.tmpCounter ++ "/" ++ "alembic.ini")
        (pyFormat sampleTemplate ALEMBIC_DIR ("sqlite:///gradebook.db")))
      (tmpdirName sampleFS.tmpCounter ++ "/" ++ "alembic.ini") =
      some (pyFormat sampleTemplate ALEMBIC_DIR ("sqlite:///gradebook.db")) ∧
     _alembic exitZero (["history"]) sampleFS =
      ((check_call exitZero ((["alembic", "-c",
          tmpdirName sampleFS.tmpCounter ++ "/" ++ "alembic.ini"]) ++ ["history"])
          (setFile (mkdtemp sampleFS).2
            (tmpdirName sampleFS.tmpCounter ++ "/" ++ "alembic.ini")
            (pyFormat sampleTemplate ALEMBIC_DIR ("sqlite:///gradebook.db")))).1,
       rmtree (tmpdirName sampleFS.tmpCounter)
         (check_call exitZero ((["alembic", "-c",
            tmpdirName sampleFS.tmpCounter ++ "/" ++ "alembic.ini"]) ++ ["history"])
            (setFile (mkdtemp sampleFS).2
              (tmpdirName sampleFS.tmpCounter ++ "/" ++ "alembic.ini")
              (pyFormat sampleTemplate ALEMBIC_DIR ("sqlite:///gradebook.db")))).2) ∧
     (_alembic exitZero (["history"]) sampleFS).2.calls =
      sampleFS.calls ++ [(["alembic", "-c",
        tmpdirName sampleFS.tmpCounter ++ "/" ++ "alembic.ini"]) ++ ["history"]]) :=
  ⟨by decide, by decide, by decide,
    alembic_passthrough_invocation exitZero (["history"]) sampleFS sampleTemplate
      (by decide) (by decide) (by decide)⟩

/-- C7: the path yielded by the scoped temporary configuration to the
caller-supplied operation lies inside a freshly created temporary directory
and names a configuration file generated, before the operation runs, by the
configuration writer for the given connection string. -/
theorem temp_alembic_ini_yields_fresh_config {α : Type} (db_url : String)
    (body : String → FS → Except PyErr α × FS) (fs : FS) (tpl : String)
    (hread : lookupFile fs ALEMBIC_INI_TEMPLATE_PATH = some tpl)
    (hru : ALEMBIC_INI_TEMPLATE_PATH ∉ fs.unreadable)
    (hw : tmpdirName fs.tmpCounter ++ "/" ++ "alembic.ini" ∉ fs.unwritable)
    (hfresh : tmpdirName fs.tmpCounter ∉ fs.dirs) :
    ∃ td ini fs2,
      td = tmpdirName fs.tmpCounter ∧
      ini = td ++ "/" ++ "alembic.ini" ∧
      td ∉ fs.dirs ∧
      isPathUnder td ini = true ∧
      td ∈ fs2.dirs ∧
      write_alembic_ini ini db_url (mkdtemp fs).2 = Except.ok fs2 ∧
      lookupFile fs2 ini = some (pyFormat tpl ALEMBIC_DIR db_url) ∧
      _temp_alembic_ini db_url body fs = ((body ini fs2).1, rmtree td (body ini fs2).2) := by
  refine ⟨tmpdirName fs.tmpCounter, tmpdirName fs.tmpCounter ++ "/" ++ "alembic.ini",
    setFile (mkdtemp fs).2 (tmpdirName fs.tmpCounter ++ "/" ++ "alembic.ini")
      (pyFormat tpl ALEMBIC_DIR db_url),
    rfl, rfl, hfresh, isPathUnder_append _ _, ?_, ?_,
    lookupFile_setFile_self _ _ _, ?_⟩
  · simp [setFile, mkdtemp]
  · exact write_alembic_ini_ok (mkdtemp fs).2 _ db_url tpl hread hru hw
  · exact temp_alembic_ini_ok_unfold db_url body fs tpl hread hru hw

theorem temp_alembic_ini_yields_fresh_config_witness :
    lookupFile sampleFS ALEMBIC_INI_TEMPLATE_PATH = some sampleTemplate ∧
    ALEMBIC_INI_TEMPLATE_PATH ∉ sampleFS.unreadable ∧
    tmpdirName sampleFS.tmpCounter ++ "/" ++ "alembic.ini" ∉ sampleFS.unwritable ∧
    tmpdirName sampleFS.tmpCounter ∉ sampleFS.dirs ∧
    ∃ td ini fs2,
      td = tmpdirName sampleFS.tmpCounter ∧
      ini = td ++ "/" ++ "alembic.ini" ∧
      td ∉ sampleFS.dirs ∧
      isPathUnder td ini = true ∧
      td ∈ fs2.dirs ∧
      write_alembic_ini ini ("postgresql://u@h/db") (mkdtemp sampleFS).2 = Except.ok fs2 ∧
      lookupFile fs2 ini = some (pyFormat sampleTemplate ALEMBIC_DIR ("postgresql://u@h/db")) ∧
      _temp_alembic_ini ("postgresql://u@h/db") noopBody sampleFS =
        ((noopBody ini fs2).1, rmtree td (noopBody ini fs2).2) :=
  ⟨by decide, by decide, by decide, by decide,
    temp_alembic_ini_yields_fresh_config ("postgresql://u@h/db") noopBody sampleFS
      sampleTemplate (by decide) (by decide) (by decide) (by decide)⟩

/-- C8: if the configuration-file generation itself fails inside the scoped
temporary configuration — before the caller-supplied operation ever runs —
the freshly created temporary directory is still removed and the original
exception propagates to the caller. -/
theorem temp_alembic_ini_write_failure {α : Type} (db_url : String)
    (body : String → FS → Except PyErr α × FS) (fs : FS) (e : PyErr)
    (hfail : write_alembic_ini (tmpdirName fs.tmpCounter ++ "/" ++ "alembic.ini") db_url
      (mkdtemp fs).2 = Except.error e) :
    _temp_alembic_ini db_url body fs =
      (Except.error e, rmtree (tmpdirName fs.tmpCounter) (mkdtemp fs).2) ∧
    tmpdirName fs.tmpCounter ∉ (_temp_alembic_ini db_url body fs).2.dirs := by
  have h : _temp_alembic_ini db_url body fs =
      (Except.error e, rmtree (tmpdirName fs.tmpCounter) (mkdtemp fs).2) := by
    unfold _temp_alembic_ini
    simp [mkdtemp_fst, hfail]
  refine ⟨h, ?_⟩
  rw [h]
  exact rmtree_not_mem_dirs _ _

theorem temp_alembic_ini_write_failure_witness :
    write_alembic_ini (tmpdirName emptyFS.tmpCounter ++ "/" ++ "alembic.ini")
        ("sqlite:///g.db") (mkdtemp emptyFS).2 =
      Except.error (PyErr.fileNotFound ALEMBIC_INI_TEMPLATE_PATH) ∧
    (_temp_alembic_ini ("sqlite:///g.db") noopBody emptyFS =
      (Except.error (PyErr.fileNotFound ALEMBIC_INI_TEMPLATE_PATH),
       rmtree (tmpdirName emptyFS.tmpCounter) (mkdtemp emptyFS).2) ∧
     tmpdirName emptyFS.tmpCounter ∉
       (_temp_alembic_ini ("sqlite:///g.db") noopBody emptyFS).2.dirs) :=
  ⟨by rfl,
    temp_alembic_ini_write_failure ("sqlite:///g.db") noopBody emptyFS
      (PyErr.fileNotFound ALEMBIC_INI_TEMPLATE_PATH) (by rfl)⟩

/-- C9: `write_alembic_ini` has defaults for both parameters: called with no
arguments it writes to the relative path `alembic.ini` using the connection
string `sqlite:///gradebook.db`. -/
theorem write_alembic_ini_defaults (fs : FS) (tpl : String)
    (hread : lookupFile fs ALEMBIC_INI_TEMPLATE_PATH = some tpl)
    (hru : ALEMBIC_INI_TEMPLATE_PATH ∉ fs.unreadable)
    (hw : ("alembic.ini" : String) ∉ fs.unwritable) :
    write_alembic_ini_noargs fs =
      write_alembic_ini ("alembic.ini") ("sqlite:///gradebook.db") fs ∧
    ∃ fs', write_alembic_ini_noargs fs = Except.ok fs' ∧
      lookupFile fs' ("alembic.ini") =
        some (pyFormat tpl ALEMBIC_DIR ("sqlite:///gradebook.db")) :=
  ⟨rfl,
    setFile fs ("alembic.ini") (pyFormat tpl ALEMBIC_DIR ("sqlite:///gradebook.db")),
    write_alembic_ini_ok fs ("alembic.ini") ("sqlite:///gradebook.db") tpl hread hru hw,
    lookupFile_setFile_self _ _ _⟩

theorem write_alembic_ini_defaults_witness :
    lookupFile sampleFS ALEMBIC_INI_TEMPLATE_PATH = some sampleTemplate ∧
    ALEMBIC_INI_TEMPLATE_PATH ∉ sampleFS.unreadable ∧
    ("alembic.ini" : String) ∉ sampleFS.unwritable ∧
    (write_alembic_ini_noargs sampleFS =
      write_alembic_ini ("alembic.ini") ("sqlite:///gradebook.db") sampleFS ∧
     ∃ fs', write_alembic_ini_noargs sampleFS = Except.ok fs' ∧
      lookupFile fs' ("alembic.ini") =
        some (pyFormat sampleTemplate ALEMBIC_DIR ("sqlite:///gradebook.db"))) :=
  ⟨by decide, by decide, by decide,
    write_alembic_ini_defaults sampleFS sampleTemplate (by decide) (by decide) (by decide)⟩

/-- C10: the migrations-directory placeholder is always filled with the
fixed path `ALEMBIC_DIR` — the `alembic` subdirectory next to the module's
own file — independently of every caller-supplied argument: for every target
path and connection string the written content is formatted with exactly
`ALEMBIC_DIR`, which no parameter of any public operation can change. -/
theorem alembic_dir_placeholder_fixed (fs : FS) (p db_url tpl : String)
    (hread : lookupFile fs ALEMBIC_INI_TEMPLATE_PATH = some tpl)
    (hru : ALEMBIC_INI_TEMPLATE_PATH ∉ fs.unreadable)
    (hw : p ∉ fs.unwritable) :
    ALEMBIC_DIR = _here ++ "/alembic" ∧
    ∃ fs', write_alembic_ini p db_url fs = Except.ok fs' ∧
      lookupFile fs' p = some (pyFormat tpl ALEMBIC_DIR db_url) :=
  ⟨rfl,
    setFile fs p (pyFormat tpl ALEMBIC_DIR db_url),
    write_alembic_ini_ok fs p db_url tpl hread hru hw,
    lookupFile_setFile_self _ _ _⟩

theorem alembic_dir_placeholder_fixed_witness :
    lookupFile sampleFS ALEMBIC_INI_TEMPLATE_PATH = some sampleTemplate ∧
    ALEMBIC_INI_TEMPLATE_PATH ∉ sampleFS.unreadable ∧
    ("/tmp/y/alembic.ini" : String) ∉ sampleFS.unwritable ∧
    (ALEMBIC_DIR = _here ++ "/alembic" ∧
     ∃ fs', write_alembic_ini ("/tmp/y/alembic.ini") ("mysql://root@db/g") sampleFS =
        Except.ok fs' ∧
      lookupFile fs' ("/tmp/y/alembic.ini") =
        some (pyFormat sampleTemplate ALEMBIC_DIR ("mysql://root@db/g"))) :=
  ⟨by decide, by decide, by decide,
    alembic_dir_placeholder_fixed sampleFS ("/tmp/y/alembic.ini") ("mysql://root@db/g")
      sampleTemplate (by decide) (by decide) (by decide)⟩
